import Mathlib

/-!
# Verification of `app.py` (food_delivery_system)

Shallow embedding of the Flask application in `src/app.py`: the two
persisted tables (`user`, `menu_item`), the per-session cart dictionary,
and the route handlers `register`, `login`, `cart`, `add_to_cart`,
`order`.  Prices are modelled as rationals (the source uses Python
floats; every price occurring in the program is an integer number of
currency units, on which float and rational arithmetic coincide).
The password-hashing primitive is external to the repository
(`flask_bcrypt`) and is modelled from the spec.
-/

namespace FoodDelivery

/-- A row of the `user` table (`class User`, app.py lines 18-29):
`id`, unique `username`, and the `password` column, which stores the
bcrypt hash, never the plaintext. -/
structure User where
  id : Nat
  username : String
  password : String
deriving Repr, DecidableEq

/-- A row of the `menu_item` table (`class MenuItem`, app.py lines 32-36). -/
structure MenuItem where
  id : Nat
  name : String
  price : ℚ
  image : String
deriving Repr, DecidableEq

/-- One value of the session-cart dictionary
(`{'name': ..., 'price': ..., 'quantity': ...}`, app.py line 118). -/
structure CartEntry where
  name : String
  price : ℚ
  quantity : Nat
deriving Repr, DecidableEq

/-- The session cart: a Python dict keyed by `str(item_id)`, modelled as
an insertion-ordered association list. -/
abbrev Cart := List (String × CartEntry)

/-- Dict lookup `cart[k]` / membership `k in cart`. -/
def Cart.find (c : Cart) (k : String) : Option CartEntry :=
  (c.find? (fun p => p.1 == k)).map Prod.snd

/-- `cart[str(item_id)]['quantity'] += 1` (app.py line 116): update the
entry at key `k` in place, leaving every other entry unchanged. -/
def Cart.incrQty (c : Cart) (k : String) : Cart :=
  c.map (fun p => if p.1 == k then (p.1, { p.2 with quantity := p.2.quantity + 1 }) else p)

/-- `cart[str(item_id)] = {...}` on an absent key (app.py line 118):
Python dict assignment appends a new key at the end. -/
def Cart.insertNew (c : Cart) (k : String) (v : CartEntry) : Cart :=
  c ++ [(k, v)]

/-- The relational store: the two tables created by `db.create_all()`
plus the autoincrement counter for `user.id`.  No other table exists
(in particular, no order table). -/
structure Db where
  users : List User
  menu : List MenuItem
  nextUserId : Nat
deriving Repr, DecidableEq

/-- `User.query.filter_by(username=username).first()` (app.py lines 58, 81). -/
def Db.findUserByName (db : Db) (username : String) : Option User :=
  db.users.find? (fun u => u.username == username)

/-- `MenuItem.query.get(item_id)` — primary-key lookup (app.py line 112). -/
def Db.findMenuItem (db : Db) (item_id : Nat) : Option MenuItem :=
  db.menu.find? (fun m => m.id == item_id)

/-- The Flask session: the logged-in identity managed by flask-login,
and the optional `'cart'` key (`session.get('cart', {})` defaults to the
empty dict when the key is absent; `session.pop('cart', None)` removes it). -/
structure Session where
  user : Option Nat
  cart : Option Cart
deriving Repr, DecidableEq

/-- The cart the handlers operate on: `session.get('cart', {})`
(app.py lines 104, 113). -/
def Session.cartItems (s : Session) : Cart := s.cart.getD []

/-- flask-login's `current_user.is_authenticated`: the session carries a
user id and `load_user` (app.py lines 39-41) resolves it to a stored user. -/
def isAuthenticated (db : Db) (s : Session) : Bool :=
  match s.user with
  | some uid => (db.users.find? (fun u => u.id == uid)).isSome
  | none => false

/-- What a handler returns to the client. `renderCart` carries the data
passed to `render_template('cart.html', cart_items=..., total_price=...)`;
`notFound` is the 404 raised by `get_or_404`. -/
inductive Response where
  | redirect (endpoint : String)
  | render (template : String)
  | renderCart (cart_items : Cart) (total_price : ℚ)
  | notFound
deriving Repr, DecidableEq

/-- The complete outcome of one request: the response, the resulting
store and session, and the `flash` messages emitted (message, category). -/
structure HandlerResult where
  response : Response
  db : Db
  session : Session
  flashes : List (String × String)
deriving Repr, DecidableEq

/-- Modelled from the spec: `flask_bcrypt.generate_password_hash`
(external hashing library, declared out of scope by spec §1; the spec
says registration "stores a one-way salted hash of the password, never
the plaintext").  The model is salted (the `salt` argument, supplied by
the library's randomness), and its output is never equal to the
plaintext; its internals stand in for the real bcrypt digest. -/
def generate_password_hash (salt : Nat) (password : String) : String :=
  String.mk ('$' :: '2' :: 'b' :: '$' :: (List.replicate salt 's' ++ '$' :: password.toList))

/-- Helper for the model of hash verification: consume the salt block
of a stored hash up to its closing delimiter. -/
def dropSalt : List Char → Option (List Char)
  | [] => none
  | c :: rest => if c = '$' then some rest else if c = 's' then dropSalt rest else none

/-- Modelled from the spec: `flask_bcrypt.check_password_hash` (external
hashing library; the spec says `authenticate` "verifies the password
against the stored hash").  Succeeds exactly when the stored string is a
well-formed output of `generate_password_hash` for the given password. -/
def check_password_hash (pwHash : String) (password : String) : Bool :=
  match pwHash.toList with
  | '$' :: '2' :: 'b' :: '$' :: rest =>
    match dropSalt rest with
    | some pw => pw == password.toList
    | none => false
  | _ => false

/-- `User.set_password` (app.py lines 23-25): hash and store. -/
def User.set_password (u : User) (salt : Nat) (password : String) : User :=
  { u with password := generate_password_hash salt password }

/-- `User.check_password` (app.py lines 27-29). -/
def User.check_password (u : User) (password : String) : Bool :=
  check_password_hash u.password password

/-- The POST branch of `register` (app.py lines 51-73).  `salt` is the
random salt bcrypt draws on this request. -/
def register (username password : String) (salt : Nat) (db : Db) (s : Session) :
    HandlerResult :=
  match db.findUserByName username with
  | some _ =>
    { response := .redirect "register", db := db, session := s,
      flashes := [("Username already exists. Try another one.", "warning")] }
  | none =>
    let new_user : User := ({ id := db.nextUserId, username := username,
                              password := "" } : User).set_password salt password
    { response := .redirect "login",
      db := { db with users := db.users ++ [new_user], nextUserId := db.nextUserId + 1 },
      session := s,
      flashes := [("Registration successful! Please log in.", "success")] }

/-- The POST branch of `login` (app.py lines 76-90).  On success
`login_user(user)` binds the session to the user's identity; on any
failure (unknown username or wrong password alike) it falls through to
the same flash and re-render. -/
def login (username password : String) (db : Db) (s : Session) : HandlerResult :=
  match db.findUserByName username with
  | some user =>
    if user.check_password password then
      { response := .redirect "menu", db := db,
        session := { s with user := some user.id },
        flashes := [("Login successful!", "success")] }
    else
      { response := .render "login.html", db := db, session := s,
        flashes := [("Invalid username or password", "danger")] }
  | none =>
    { response := .render "login.html", db := db, session := s,
      flashes := [("Invalid username or password", "danger")] }

/-- The `@login_required` decorator: an unauthenticated request is
redirected to the login view and the handler body never runs. -/
def login_required (handler : Db → Session → HandlerResult) (db : Db) (s : Session) :
    HandlerResult :=
  if isAuthenticated db s then handler db s
  else { response := .redirect "login", db := db, session := s, flashes := [] }

/-- Body of the `/cart` route (app.py lines 101-106): read the session
cart, compute `sum(item['price'] * item['quantity'] for item in
cart_items.values())`, render; no state is written. -/
def cartBody (db : Db) (s : Session) : HandlerResult :=
  let cart_items := s.cartItems
  let total_price := (cart_items.map (fun p => p.2.price * (p.2.quantity : ℚ))).sum
  { response := .renderCart cart_items total_price, db := db, session := s, flashes := [] }

/-- The `/cart` route with its `@login_required` gate. -/
def cartRoute (db : Db) (s : Session) : HandlerResult :=
  login_required cartBody db s

/-- Body of the `/add_to_cart/<int:item_id>` route (app.py lines
109-122): `get_or_404` the menu item, then increment the existing cart
entry or insert a fresh one with quantity 1. -/
def add_to_cartBody (item_id : Nat) (db : Db) (s : Session) : HandlerResult :=
  match db.findMenuItem item_id with
  | none => { response := .notFound, db := db, session := s, flashes := [] }
  | some item =>
    let cart := s.cartItems
    let cart' :=
      if (Cart.find cart (toString item_id)).isSome then
        Cart.incrQty cart (toString item_id)
      else
        Cart.insertNew cart (toString item_id)
          { name := item.name, price := item.price, quantity := 1 }
    { response := .redirect "menu", db := db, session := { s with cart := some cart' },
      flashes := [(item.name ++ " added to cart!", "success")] }

/-- The `/add_to_cart/<int:item_id>` route with its `@login_required` gate. -/
def add_to_cart (item_id : Nat) (db : Db) (s : Session) : HandlerResult :=
  login_required (add_to_cartBody item_id) db s

/-- Body of the `/order` route (app.py lines 125-130):
`session.pop('cart', None)`, flash, render the confirmation. -/
def orderBody (db : Db) (s : Session) : HandlerResult :=
  { response := .render "order.html", db := db, session := { s with cart := none },
    flashes := [("Order placed successfully!", "success")] }

/-- The `/order` route with its `@login_required` gate. -/
def orderRoute (db : Db) (s : Session) : HandlerResult :=
  login_required orderBody db s

/-- The nine rows seeded into `menu_item` on first boot
(app.py lines 138-148; ids assigned by autoincrement in insertion order). -/
def seedMenu : List MenuItem :=
  [ { id := 1, name := "Burger", price := 99, image := "burger.jpg" },
    { id := 2, name := "Pizza", price := 199, image := "pizza.jpg" },
    { id := 3, name := "Pasta", price := 149, image := "pasta.jpg" },
    { id := 4, name := "Salad", price := 89, image := "salad.jpg" },
    { id := 5, name := "Sushi", price := 189, image := "sushi.jpg" },
    { id := 6, name := "Fries", price := 49, image := "fries.jpg" },
    { id := 7, name := "Taco", price := 129, image := "taco.jpg" },
    { id := 8, name := "Sandwich", price := 89, image := "sandwich.jpg" },
    { id := 9, name := "Ice Cream", price := 59, image := "icecream.jpg" } ]

/-- Concrete fixture: the account `alice`, whose stored password is the
hash (salt 2) of the plaintext `"pw"`. -/
def aliceUser : User :=
  { id := 1, username := "alice", password := generate_password_hash 2 "pw" }

/-- Concrete fixture: a store holding the single account `alice` and the
nine seeded menu rows. -/
def aliceDb : Db :=
  { users := [aliceUser], menu := seedMenu, nextUserId := 2 }

/-- Concrete fixture: a fresh session (no identity, no cart key). -/
def emptySession : Session :=
  { user := none, cart := none }

/-- Concrete fixture: the session of `alice`, logged in, no cart key. -/
def aliceSession : Session :=
  { user := some 1, cart := none }

/-! ## Helper lemmas about the hashing model -/

theorem dropSalt_replicate (n : Nat) (l : List Char) :
    dropSalt (List.replicate n 's' ++ '$' :: l) = some l := by
  induction n with
  | zero => simp [dropSalt]
  | succ k ih => simpa [List.replicate_succ, dropSalt] using ih

theorem check_generate (salt : Nat) (pw : String) :
    check_password_hash (generate_password_hash salt pw) pw = true := by
  simp [check_password_hash, generate_password_hash, String.toList, dropSalt_replicate]

theorem generate_ne_plaintext (salt : Nat) (pw : String) :
    generate_password_hash salt pw ≠ pw := by
  intro h
  have h2 : '$' :: '2' :: 'b' :: '$' :: (List.replicate salt 's' ++ '$' :: pw.toList) =
      pw.toList := congrArg String.toList h
  have h3 := congrArg List.length h2
  simp [List.length_append, List.length_replicate] at h3
  omega

/-! ## Claims about the account store -/

/-- C1: registering a username that already exists fails with the
duplicate-username warning, redirects back to registration, and leaves
the store (and session) unchanged; and registering the same username
twice from an empty store yields the duplicate failure on the second
attempt, with exactly one account with that username afterwards. -/
theorem C1_register_duplicate
    (db : Db) (s : Session) (username password : String) (salt : Nat)
    (hdup : ∃ u ∈ db.users, u.username = username) :
    register username password salt db s =
      { response := .redirect "register", db := db, session := s,
        flashes := [("Username already exists. Try another one.", "warning")] } ∧
    ∀ (menu : List MenuItem) (nextId : Nat) (p1 p2 : String) (salt1 salt2 : Nat)
      (s1 s2 : Session),
      register username p2 salt2 (register username p1 salt1 ⟨[], menu, nextId⟩ s1).db s2 =
        { response := .redirect "register",
          db := (register username p1 salt1 ⟨[], menu, nextId⟩ s1).db, session := s2,
          flashes := [("Username already exists. Try another one.", "warning")] } ∧
      ((register username p2 salt2
          (register username p1 salt1 ⟨[], menu, nextId⟩ s1).db s2).db.users.filter
        (fun u => u.username == username)).length = 1 := by
  constructor
  · obtain ⟨u, hu, hname⟩ := hdup
    have hsome : (db.users.find? (fun u => u.username == username)).isSome :=
      List.find?_isSome.mpr ⟨u, hu, by simp [hname]⟩
    obtain ⟨v, hv⟩ := Option.isSome_iff_exists.mp hsome
    simp [register, Db.findUserByName, hv]
  · intro menu nextId p1 p2 salt1 salt2 s1 s2
    simp [register, Db.findUserByName, User.set_password]

/-- C1 witness: a store holding the single user `bob`; re-registering
`bob` yields the duplicate failure and leaves the store untouched. -/
theorem C1_register_duplicate_witness :
    (∃ u ∈ [({ id := 1, username := "bob", password := "h" } : User)], u.username = "bob") ∧
    (register "bob" "x" 0 ⟨[{ id := 1, username := "bob", password := "h" }], [], 2⟩
        ⟨none, none⟩ =
      { response := .redirect "register",
        db := ⟨[{ id := 1, username := "bob", password := "h" }], [], 2⟩,
        session := ⟨none, none⟩,
        flashes := [("Username already exists. Try another one.", "warning")] } ∧
     ∀ (menu : List MenuItem) (nextId : Nat) (p1 p2 : String) (salt1 salt2 : Nat)
       (s1 s2 : Session),
       register "bob" p2 salt2 (register "bob" p1 salt1 ⟨[], menu, nextId⟩ s1).db s2 =
         { response := .redirect "register",
           db := (register "bob" p1 salt1 ⟨[], menu, nextId⟩ s1).db, session := s2,
           flashes := [("Username already exists. Try another one.", "warning")] } ∧
       ((register "bob" p2 salt2
           (register "bob" p1 salt1 ⟨[], menu, nextId⟩ s1).db s2).db.users.filter
         (fun u => u.username == "bob")).length = 1) :=
  ⟨⟨{ id := 1, username := "bob", password := "h" }, by simp, rfl⟩,
   C1_register_duplicate _ _ "bob" "x" 0
     ⟨{ id := 1, username := "bob", password := "h" }, by simp, rfl⟩⟩

/-- C2: login succeeds exactly when the username lookup finds a user
whose stored hash verifies the password; any failing attempt — unknown
username or wrong password alike — produces the one generic
invalid-credentials result, identical in both cases. -/
theorem C2_login_generic_failure (db : Db) (s : Session) (username password : String) :
    ((login username password db s).response = .redirect "menu" ↔
      ∃ u ∈ db.users, db.findUserByName username = some u ∧
        check_password_hash u.password password = true) ∧
    (¬ (∃ u ∈ db.users, db.findUserByName username = some u ∧
          check_password_hash u.password password = true) →
      login username password db s =
        { response := .render "login.html", db := db, session := s,
          flashes := [("Invalid username or password", "danger")] }) := by
  rcases hfind : db.findUserByName username with _ | u
  · constructor
    · simp [login, hfind]
    · intro _; simp [login, hfind]
  · have hmem : u ∈ db.users := List.mem_of_find?_eq_some hfind
    by_cases hchk : check_password_hash u.password password = true
    · constructor
      · simp only [login, hfind, User.check_password, hchk, if_true]
        constructor
        · intro _; exact ⟨u, hmem, rfl, hchk⟩
        · intro _; trivial
      · intro hno; exact absurd ⟨u, hmem, rfl, hchk⟩ hno
    · constructor
      · simp only [login, hfind, User.check_password, hchk, if_false]
        constructor
        · intro h; exact absurd h (by simp)
        · rintro ⟨v, _, hv, hc⟩
          obtain rfl : u = v := Option.some.inj hv
          exact absurd hc hchk
      · intro _
        simp [login, hfind, User.check_password, hchk]

/-- C2 witness: for the store holding `alice` with a hash of `"pw"`,
the attempt with the wrong password `"bad"` fails with the generic
invalid-credentials result, and the same record is produced for the
unknown username `"mallory"`: the two failures are indistinguishable.
The correct password `"pw"` succeeds. -/
theorem C2_login_generic_failure_witness :
    (¬ (∃ u ∈ aliceDb.users, aliceDb.findUserByName "alice" = some u ∧
          check_password_hash u.password "bad" = true)) ∧
    login "alice" "bad" aliceDb emptySession =
      { response := .render "login.html", db := aliceDb, session := emptySession,
        flashes := [("Invalid username or password", "danger")] } ∧
    login "mallory" "bad" aliceDb emptySession =
      { response := .render "login.html", db := aliceDb, session := emptySession,
        flashes := [("Invalid username or password", "danger")] } ∧
    (login "alice" "pw" aliceDb emptySession).response = .redirect "menu" := by
  have hno : ¬ (∃ u ∈ aliceDb.users, aliceDb.findUserByName "alice" = some u ∧
      check_password_hash u.password "bad" = true) := by decide
  have hno2 : ¬ (∃ u ∈ aliceDb.users, aliceDb.findUserByName "mallory" = some u ∧
      check_password_hash u.password "bad" = true) := by decide
  refine ⟨hno, (C2_login_generic_failure aliceDb emptySession "alice" "bad").2 hno,
    (C2_login_generic_failure aliceDb emptySession "mallory" "bad").2 hno2, ?_⟩
  exact (C2_login_generic_failure aliceDb emptySession "alice" "pw").1.mpr
    ⟨aliceUser, by decide, by decide, by decide⟩

/-- C3: a successful registration stores, in the new user's `password`
column, the salted hash of the plaintext — appended as the only new row;
the stored value is never the plaintext itself, and it verifies the
plaintext via the hashing library's check. -/
theorem C3_password_hashed (db : Db) (s : Session) (username password : String) (salt : Nat)
    (hfresh : db.findUserByName username = none) :
    (register username password salt db s).db.users =
      db.users ++ [{ id := db.nextUserId, username := username,
                     password := generate_password_hash salt password }] ∧
    generate_password_hash salt password ≠ password ∧
    check_password_hash (generate_password_hash salt password) password = true := by
  refine ⟨?_, generate_ne_plaintext salt password, check_generate salt password⟩
  simp [register, hfresh, User.set_password]

/-- C3 witness: registering `carol` in the store that only holds `alice`
appends one row holding the hash of `"secret"`, which is not `"secret"`
and verifies it. -/
theorem C3_password_hashed_witness :
    aliceDb.findUserByName "carol" = none ∧
    ((register "carol" "secret" 3 aliceDb emptySession).db.users =
      aliceDb.users ++ [{ id := 2, username := "carol",
                          password := generate_password_hash 3 "secret" }] ∧
     generate_password_hash 3 "secret" ≠ "secret" ∧
     check_password_hash (generate_password_hash 3 "secret") "secret" = true) :=
  ⟨by decide, C3_password_hashed aliceDb emptySession "carol" "secret" 3 (by decide)⟩

/-! ## Claims about the session cart -/

/-- Incrementing the quantity at key `k` changes the entry found at `k`
by exactly one on the `quantity` field. -/
theorem Cart.find_incrQty_self (c : Cart) (k : String) :
    Cart.find (Cart.incrQty c k) k =
      (Cart.find c k).map (fun e => { e with quantity := e.quantity + 1 }) := by
  induction c with
  | nil => rfl
  | cons p rest ih =>
    rcases p with ⟨pk, pe⟩
    by_cases h : pk = k
    · simp [Cart.incrQty, Cart.find, List.find?_cons, h]
    · simpa [Cart.incrQty, Cart.find, List.find?_cons, h, Option.map_map,
        Function.comp] using ih

/-- Incrementing the quantity at key `k` leaves the lookup at every
other key unchanged. -/
theorem Cart.find_incrQty_ne (c : Cart) (k k' : String) (hne : k' ≠ k) :
    Cart.find (Cart.incrQty c k) k' = Cart.find c k' := by
  induction c with
  | nil => rfl
  | cons p rest ih =>
    rcases p with ⟨pk, pe⟩
    by_cases hpk : pk = k
    · have hb : (k == k') = false := beq_eq_false_iff_ne.mpr fun h => hne h.symm
      simpa [Cart.incrQty, Cart.find, List.find?_cons, hpk, hb, Option.map_map,
        Function.comp] using ih
    · by_cases hpk' : pk = k'
      · simp [Cart.incrQty, Cart.find, List.find?_cons, hpk, hpk', hne]
      · simpa [Cart.incrQty, Cart.find, List.find?_cons, hpk, hpk', hne, Option.map_map,
          Function.comp] using ih

/-- Characterization of a successful authenticated `add_to_cart`
request on a menu item that exists. -/
theorem add_to_cart_eq (db : Db) (s : Session) (item_id : Nat) (item : MenuItem)
    (hauth : isAuthenticated db s = true)
    (hitem : db.findMenuItem item_id = some item) :
    add_to_cart item_id db s =
      { response := .redirect "menu", db := db,
        session := { s with cart := some (
          if (Cart.find s.cartItems (toString item_id)).isSome then
            Cart.incrQty s.cartItems (toString item_id)
          else
            Cart.insertNew s.cartItems (toString item_id)
              { name := item.name, price := item.price, quantity := 1 }) },
        flashes := [(item.name ++ " added to cart!", "success")] } := by
  simp [add_to_cart, login_required, hauth, add_to_cartBody, hitem, Session.cartItems]

/-- C4: for a menu item present in the menu, adding it when its key is
absent from the cart appends exactly one entry with quantity 1 (so the
empty cart becomes the singleton with quantity 1); adding it when its
key is already present increments that entry's quantity by 1 and leaves
every other key's lookup unchanged; in particular two adds of the same
item from the empty cart give quantity 2. -/
theorem C4_add_increments (db : Db) (s : Session) (item_id : Nat) (item : MenuItem)
    (hauth : isAuthenticated db s = true)
    (hitem : db.findMenuItem item_id = some item) :
    (Cart.find s.cartItems (toString item_id) = none →
      (add_to_cart item_id db s).session.cart =
        some (s.cartItems ++
          [(toString item_id, { name := item.name, price := item.price, quantity := 1 })])) ∧
    (∀ e, Cart.find s.cartItems (toString item_id) = some e →
      Cart.find ((add_to_cart item_id db s).session.cartItems) (toString item_id) =
        some { e with quantity := e.quantity + 1 } ∧
      ∀ k', k' ≠ toString item_id →
        Cart.find ((add_to_cart item_id db s).session.cartItems) k' =
          Cart.find s.cartItems k') ∧
    (s.cartItems = [] →
      (add_to_cart item_id db s).session.cart =
        some [(toString item_id, { name := item.name, price := item.price, quantity := 1 })] ∧
      (add_to_cart item_id db (add_to_cart item_id db s).session).session.cart =
        some [(toString item_id, { name := item.name, price := item.price, quantity := 2 })]) := by
  have heq := add_to_cart_eq db s item_id item hauth hitem
  refine ⟨?_, ?_, ?_⟩
  · intro habs
    rw [heq]
    simp [habs, Cart.insertNew]
  · intro e hpres
    have hsome : (Cart.find s.cartItems (toString item_id)).isSome = true := by
      rw [hpres]; rfl
    simp only [Session.cartItems] at hpres hsome
    constructor
    · rw [heq]
      simp only [Session.cartItems, Option.getD_some]
      rw [if_pos hsome, Cart.find_incrQty_self, hpres]
      rfl
    · intro k' hk'
      rw [heq]
      simp only [Session.cartItems, Option.getD_some]
      rw [if_pos hsome]
      exact Cart.find_incrQty_ne _ _ _ hk'
  · intro hempty
    have habs : Cart.find s.cartItems (toString item_id) = none := by
      rw [hempty]; rfl
    have h1 : (add_to_cart item_id db s).session.cart =
        some [(toString item_id, { name := item.name, price := item.price, quantity := 1 })] := by
      rw [heq]; simp [habs, hempty, Cart.insertNew, Cart.find, List.find?]
    refine ⟨h1, ?_⟩
    have hauth2 : isAuthenticated db (add_to_cart item_id db s).session = true := by
      rw [heq]; exact hauth
    have heq2 := add_to_cart_eq db (add_to_cart item_id db s).session item_id item hauth2 hitem
    rw [heq2]
    simp [Session.cartItems, h1, Cart.find, List.find?, Cart.incrQty]

/-- C4 witness: `alice`, logged in with an empty cart, adds menu item 1
(Burger) twice: first add gives quantity 1, second add gives quantity 2. -/
theorem C4_add_increments_witness :
    isAuthenticated aliceDb aliceSession = true ∧
    aliceDb.findMenuItem 1 =
      some { id := 1, name := "Burger", price := 99, image := "burger.jpg" } ∧
    (add_to_cart 1 aliceDb aliceSession).session.cart =
      some [(toString (1 : Nat), { name := "Burger", price := 99, quantity := 1 })] ∧
    (add_to_cart 1 aliceDb (add_to_cart 1 aliceDb aliceSession).session).session.cart =
      some [(toString (1 : Nat), { name := "Burger", price := 99, quantity := 2 })] := by
  have h := (C4_add_increments aliceDb aliceSession 1
      { id := 1, name := "Burger", price := 99, image := "burger.jpg" }
      (by decide) (by decide)).2.2 rfl
  exact ⟨by decide, by decide, h.1, h.2⟩

/-- C5: the cart view computes the total as Σ (price × quantity) over
the cart's entries and mutates nothing: the store, the session (hence
the cart), and the flash list are returned unchanged; in particular the
cart holding Burger (price 99) twice and Fries (price 49) once totals
247. -/
theorem C5_cart_total (db : Db) (s : Session)
    (hauth : isAuthenticated db s = true) :
    cartRoute db s =
      { response := .renderCart s.cartItems
          ((s.cartItems.map (fun p => p.2.price * (p.2.quantity : ℚ))).sum),
        db := db, session := s, flashes := [] } ∧
    (s.cartItems = [("1", { name := "Burger", price := 99, quantity := 2 }),
                    ("6", { name := "Fries", price := 49, quantity := 1 })] →
      (cartRoute db s).response =
        .renderCart s.cartItems 247) := by
  constructor
  · simp [cartRoute, login_required, hauth, cartBody]
  · intro hc
    simp [cartRoute, login_required, hauth, cartBody, hc]
    norm_num

/-- C5 witness: for `alice`'s session holding Burger×2 and Fries×1 the
route leaves all state unchanged and reports the total 247. -/
theorem C5_cart_total_witness :
    isAuthenticated aliceDb
      { user := some 1,
        cart := some [("1", { name := "Burger", price := 99, quantity := 2 }),
                      ("6", { name := "Fries", price := 49, quantity := 1 })] } = true ∧
    (cartRoute aliceDb
      { user := some 1,
        cart := some [("1", { name := "Burger", price := 99, quantity := 2 }),
                      ("6", { name := "Fries", price := 49, quantity := 1 })] }).response =
      .renderCart [("1", { name := "Burger", price := 99, quantity := 2 }),
                   ("6", { name := "Fries", price := 49, quantity := 1 })] 247 := by
  refine ⟨by decide, ?_⟩
  exact (C5_cart_total aliceDb _ (by decide)).2 rfl

/-- C6: placing an order always leaves the session without a cart key,
hence with the empty cart, whatever the cart held before; on a session
that already has no cart key the session is returned entirely
unchanged (a no-op). -/
theorem C6_checkout_empties (db : Db) (s : Session)
    (hauth : isAuthenticated db s = true) :
    (orderRoute db s).session.cart = none ∧
    (orderRoute db s).session.cartItems = [] ∧
    (orderRoute db s).session = { s with cart := none } ∧
    (s.cart = none → (orderRoute db s).session = s) := by
  refine ⟨?_, ?_, ?_, ?_⟩ <;>
    simp [orderRoute, login_required, hauth, orderBody, Session.cartItems]
  intro hnone
  cases s
  simp_all

/-- C6 witness: ordering on `alice`'s nonempty cart empties it, and
ordering on her cartless session is a no-op. -/
theorem C6_checkout_empties_witness :
    isAuthenticated aliceDb
      { user := some 1,
        cart := some [("1", { name := "Burger", price := 99, quantity := 2 })] } = true ∧
    (orderRoute aliceDb
      { user := some 1,
        cart := some [("1", { name := "Burger", price := 99, quantity := 2 })] }).session.cart
      = none ∧
    (orderRoute aliceDb aliceSession).session = aliceSession := by
  refine ⟨by decide, ?_, ?_⟩
  · exact (C6_checkout_empties aliceDb _ (by decide)).1
  · exact (C6_checkout_empties aliceDb aliceSession (by decide)).2.2.2 rfl

/-- C7: without an authenticated session, each of the `/cart`, `/order`
and `/add_to_cart/{item_id}` routes only redirects to the login view:
the store and the session (including the cart) are unchanged and no
flash is emitted. -/
theorem C7_unauthenticated_redirect (db : Db) (s : Session) (item_id : Nat)
    (hauth : isAuthenticated db s = false) :
    cartRoute db s =
      { response := .redirect "login", db := db, session := s, flashes := [] } ∧
    orderRoute db s =
      { response := .redirect "login", db := db, session := s, flashes := [] } ∧
    add_to_cart item_id db s =
      { response := .redirect "login", db := db, session := s, flashes := [] } := by
  refine ⟨?_, ?_, ?_⟩ <;> simp [cartRoute, orderRoute, add_to_cart, login_required, hauth]

/-- C7 witness: a fresh session (nobody logged in) is redirected to
login by all three protected routes, with no state change. -/
theorem C7_unauthenticated_redirect_witness :
    isAuthenticated aliceDb emptySession = false ∧
    (cartRoute aliceDb emptySession =
      { response := .redirect "login", db := aliceDb, session := emptySession,
        flashes := [] } ∧
     orderRoute aliceDb emptySession =
      { response := .redirect "login", db := aliceDb, session := emptySession,
        flashes := [] } ∧
     add_to_cart 1 aliceDb emptySession =
      { response := .redirect "login", db := aliceDb, session := emptySession,
        flashes := [] }) :=
  ⟨by decide, C7_unauthenticated_redirect aliceDb emptySession 1 (by decide)⟩

/-- C8: an authenticated add of an `item_id` naming no menu item fails
with the 404 response and changes nothing: the store, the session, and
hence the cart are exactly as before, and no flash is emitted. -/
theorem C8_item_not_found (db : Db) (s : Session) (item_id : Nat)
    (hauth : isAuthenticated db s = true)
    (hmiss : db.findMenuItem item_id = none) :
    add_to_cart item_id db s =
      { response := .notFound, db := db, session := s, flashes := [] } := by
  simp [add_to_cart, login_required, hauth, add_to_cartBody, hmiss]

/-- C8 witness: the seeded menu has no item 42, so `alice`'s add of 42
is a 404 and her session keeps its cart. -/
theorem C8_item_not_found_witness :
    (isAuthenticated aliceDb aliceSession = true ∧
     aliceDb.findMenuItem 42 = none) ∧
    add_to_cart 42 aliceDb aliceSession =
      { response := .notFound, db := aliceDb, session := aliceSession, flashes := [] } :=
  ⟨⟨by decide, by decide⟩, C8_item_not_found aliceDb aliceSession 42 (by decide) (by decide)⟩

/-- C9: placing an order writes nothing to the relational store — the
whole store, and in particular the `user` and `menu_item` tables, are
returned unchanged; the only effect is dropping the session's cart key
and rendering the confirmation with its flash. -/
theorem C9_order_frame (db : Db) (s : Session)
    (hauth : isAuthenticated db s = true) :
    (orderRoute db s).db = db ∧
    (orderRoute db s).db.users = db.users ∧
    (orderRoute db s).db.menu = db.menu ∧
    (orderRoute db s).session = { s with cart := none } ∧
    (orderRoute db s).response = .render "order.html" ∧
    (orderRoute db s).flashes = [("Order placed successfully!", "success")] := by
  refine ⟨?_, ?_, ?_, ?_, ?_, ?_⟩ <;>
    simp [orderRoute, login_required, hauth, orderBody]

/-- C9 witness: `alice` places an order with a nonempty cart; the two
tables are untouched and only the cart key is dropped. -/
theorem C9_order_frame_witness :
    isAuthenticated aliceDb
      { user := some 1,
        cart := some [("1", { name := "Burger", price := 99, quantity := 2 })] } = true ∧
    ((orderRoute aliceDb
       { user := some 1,
         cart := some [("1", { name := "Burger", price := 99, quantity := 2 })] }).db
        = aliceDb ∧
     (orderRoute aliceDb
       { user := some 1,
         cart := some [("1", { name := "Burger", price := 99, quantity := 2 })] }).session
        = { user := some 1, cart := none }) := by
  refine ⟨by decide, ?_, ?_⟩
  · exact (C9_order_frame aliceDb _ (by decide)).1
  · exact (C9_order_frame aliceDb _ (by decide)).2.2.2.1

/-! ## Reachable cart states (claim C10) -/

/-- The cart-affecting requests a session can issue: an
`/add_to_cart/{item_id}` request or an `/order` (checkout) request. -/
inductive CartOp where
  | add (item_id : Nat)
  | checkout
deriving Repr, DecidableEq

/-- The session produced by one cart request against the fixed store
`db` (the handlers never modify `db.menu`, so the menu is the same for
every step). -/
def applyOp (db : Db) (s : Session) : CartOp → Session
  | .add i => (add_to_cart i db s).session
  | .checkout => (orderRoute db s).session

/-- The session after a whole sequence of cart requests. -/
def runOps (db : Db) (s : Session) : List CartOp → Session
  | [] => s
  | op :: ops => runOps db (applyOp db s op) ops

/-- The cart invariant of claim C10: every entry has quantity at least
1, and its key, snapshotted name and snapshotted price are those of the
menu item its `item_id` looks up in the (fixed) menu. -/
def cartInv (menu : List MenuItem) (c : Cart) : Prop :=
  ∀ p ∈ c, 1 ≤ p.2.quantity ∧
    ∃ item ∈ menu, menu.find? (fun m => m.id == item.id) = some item ∧
      p.1 = toString item.id ∧ p.2.name = item.name ∧ p.2.price = item.price

/-- One cart request preserves the cart invariant: a checkout empties
the cart; an add either rejects (unauthenticated redirect or 404, cart
untouched), increments one quantity, or inserts a fresh quantity-1
entry copied from the resolved menu item. -/
theorem cartInv_applyOp (db : Db) (s : Session) (op : CartOp)
    (hinv : cartInv db.menu s.cartItems) :
    cartInv db.menu (applyOp db s op).cartItems := by
  cases op with
  | checkout =>
    by_cases hauth : isAuthenticated db s = true
    · intro p hp
      simp [applyOp, orderRoute, login_required, hauth, orderBody, Session.cartItems] at hp
    · simpa [applyOp, orderRoute, login_required, hauth] using hinv
  | add i =>
    by_cases hauth : isAuthenticated db s = true
    · rcases hfind : db.findMenuItem i with _ | X
      · simpa [applyOp, add_to_cart, login_required, hauth, add_to_cartBody, hfind]
          using hinv
      · have heq := add_to_cart_eq db s i X hauth hfind
        have hXmem : X ∈ db.menu := by
          have h := hfind
          simp only [Db.findMenuItem] at h
          exact List.mem_of_find?_eq_some h
        have hXid : X.id = i := by
          have h := hfind
          simp only [Db.findMenuItem] at h
          simpa using List.find?_some h
        have hfind2 : db.menu.find? (fun m => m.id == X.id) = some X := by
          have h := hfind
          simp only [Db.findMenuItem] at h
          rw [hXid]
          exact h
        intro p hp
        simp only [applyOp, heq, Session.cartItems, Option.getD_some] at hp
        simp only [Session.cartItems] at hinv
        by_cases hpres : (Cart.find (s.cart.getD []) (toString i)).isSome = true
        · rw [if_pos hpres] at hp
          simp only [Cart.incrQty, List.mem_map] at hp
          obtain ⟨q, hq, hfq⟩ := hp
          obtain ⟨hq1, item, hmem, hfound, hkey, hname, hprice⟩ := hinv q hq
          by_cases hqk : q.1 = toString i
          · rw [if_pos (by simpa using hqk)] at hfq
            refine ⟨?_, item, hmem, hfound, ?_, ?_, ?_⟩ <;> rw [← hfq] <;> simp_all
          · rw [if_neg (by simpa using hqk)] at hfq
            rw [← hfq]
            exact ⟨hq1, item, hmem, hfound, hkey, hname, hprice⟩
        · rw [if_neg hpres] at hp
          simp only [Cart.insertNew, List.mem_append, List.mem_singleton] at hp
          rcases hp with hp | hp
          · exact hinv p hp
          · subst hp
            exact ⟨le_refl 1, X, hXmem, hfind2, by rw [hXid], rfl, rfl⟩
    · simpa [applyOp, add_to_cart, login_required, hauth] using hinv

/-- C10: any cart reachable from the empty cart by a sequence of cart
requests against a fixed store satisfies the invariant: every entry's
quantity is at least 1 and its snapshotted name and price are exactly
those the (fixed) menu assigns to the entry's `item_id` — repeat adds
only increment quantities and never overwrite the snapshot. -/
theorem C10_cart_invariant (db : Db) (s : Session) (ops : List CartOp)
    (h0 : s.cart = none) :
    cartInv db.menu ((runOps db s ops).cartItems) := by
  have h0' : cartInv db.menu s.cartItems := by
    intro p hp
    rw [Session.cartItems, h0] at hp
    simp at hp
  clear h0
  induction ops generalizing s with
  | nil => simpa [runOps] using h0'
  | cons op ops ih =>
    simp only [runOps]
    exact ih _ (cartInv_applyOp db s op h0')

/-- C10 witness: `alice` adds Burger twice, checks out, adds Fries,
then requests the nonexistent item 42; the invariant holds at the end. -/
theorem C10_cart_invariant_witness :
    aliceSession.cart = none ∧
    cartInv aliceDb.menu
      ((runOps aliceDb aliceSession
        [.add 1, .add 1, .checkout, .add 6, .add 42]).cartItems) :=
  ⟨rfl, C10_cart_invariant aliceDb aliceSession
    [.add 1, .add 1, .checkout, .add 6, .add 42] rfl⟩

end FoodDelivery
